import Mathlib

/-! # ModularSensors: sensor drivers and their variables

A shallow embedding of the five driver headers

* `src/sensors/AOSongDHT.h`
* `src/sensors/Decagon5TM.h`
* `src/sensors/MeterTeros11.h`
* `src/sensors/YosemitechY511.h`
* `src/sensors/YosemitechY520.h`

Preprocessor constants become `Nat` definitions with the source's names, the
inline constructors become functions that build the record of arguments handed
to the base-class constructor, and C++ default arguments become `Option`
parameters (`none` = the caller omitted the argument).
-/

namespace ModularSensors

/-! ## Machine integers -/

/-- The cast `(uint8_t) n` applied to a non-negative constant. -/
def toUInt8 (n : Nat) : Nat := n % 256

/-! ## Sensor specific defines -/

-- AOSongDHT.h, lines 47-69
def DHT_NUM_VARIABLES : Nat := 3
def DHT_WARM_UP_TIME_MS : Nat := 1700
def DHT_STABILIZATION_TIME_MS : Nat := 0
def DHT_MEASUREMENT_TIME_MS : Nat := 2000
def DHT_HUMIDITY_RESOLUTION : Nat := 1
def DHT_HUMIDITY_VAR_NUM : Nat := 0
def DHT_TEMP_RESOLUTION : Nat := 1
def DHT_TEMP_VAR_NUM : Nat := 1
def DHT_HI_RESOLUTION : Nat := 1
def DHT_HI_VAR_NUM : Nat := 2

-- Decagon5TM.h, lines 48-73
def TM_NUM_VARIABLES : Nat := 3
def TM_WARM_UP_TIME_MS : Nat := 200
def TM_STABILIZATION_TIME_MS : Nat := 0
def TM_MEASUREMENT_TIME_MS : Nat := 200
def TM_EA_RESOLUTION : Nat := 5
def TM_EA_VAR_NUM : Nat := 0
def TM_TEMP_RESOLUTION : Nat := 2
def TM_TEMP_VAR_NUM : Nat := 1
def TM_VWC_RESOLUTION : Nat := 3
def TM_VWC_VAR_NUM : Nat := 2

-- MeterTeros11.h, lines 59-85
def TEROS11_NUM_VARIABLES : Nat := 3
def TEROS11_WARM_UP_TIME_MS : Nat := 250
def TEROS11_STABILIZATION_TIME_MS : Nat := 50
def TEROS11_MEASUREMENT_TIME_MS : Nat := 50
def TEROS11_EA_RESOLUTION : Nat := 5
def TEROS11_EA_VAR_NUM : Nat := 0
def TEROS11_TEMP_RESOLUTION : Nat := 2
def TEROS11_TEMP_VAR_NUM : Nat := 1
def TEROS11_VWC_RESOLUTION : Nat := 3
def TEROS11_VWC_VAR_NUM : Nat := 2

-- YosemitechY511.h, lines 86-118
def Y511_NUM_VARIABLES : Nat := 2
def Y511_WARM_UP_TIME_MS : Nat := 8000
def Y511_STABILIZATION_TIME_MS : Nat := 40000
def Y511_MEASUREMENT_TIME_MS : Nat := 4000
def Y511_TURB_RESOLUTION : Nat := 2
def Y511_TURB_VAR_NUM : Nat := 0
def Y511_TEMP_RESOLUTION : Nat := 1
def Y511_TEMP_VAR_NUM : Nat := 1

-- YosemitechY520.h, lines 43-61
def Y520_NUM_VARIABLES : Nat := 2
def Y520_WARM_UP_TIME_MS : Nat := 1600
def Y520_STABILIZATION_TIME_MS : Nat := 10000
def Y520_MEASUREMENT_TIME_MS : Nat := 2700
def Y520_COND_RESOLUTION : Nat := 1
def Y520_COND_VAR_NUM : Nat := 0
def Y520_TEMP_RESOLUTION : Nat := 1
def Y520_TEMP_VAR_NUM : Nat := 1

/-! ## Timing figures quoted in the header documentation (milliseconds) -/

/-- MeterTeros11.h line 33: "Warm-up time in SDI-12 mode: 245ms typical". -/
def TEROS11_DOC_WARM_UP_MS : Nat := 245
/-- MeterTeros11.h line 34: "Measurement duration: 25 ms to 50 ms", upper end. -/
def TEROS11_DOC_MEASUREMENT_MAX_MS : Nat := 50
/-- YosemitechY511.h line 41: "Time before sensor responds after power - 500ms". -/
def Y511_DOC_RESPONSE_MS : Nat := 500
/-- YosemitechY511.h line 42: stable reading 22sec after "StartMeasurement". -/
def Y511_DOC_STABLE_MS : Nat := 22 * 1000
/-- YosemitechY511.h lines 91-92: with the brush, warmup+stabilization must be >20s. -/
def Y511_DOC_BRUSH_MS : Nat := 20 * 1000
/-- YosemitechY511.h lines 98-99: warmup+stabilization > 48 s for consecutive
readings to give different results. -/
def Y511_DOC_CONSECUTIVE_MS : Nat := 48 * 1000
/-- YosemitechY520.h line 31: "Time before sensor responds after power - 1200 ms". -/
def Y520_DOC_RESPONSE_MS : Nat := 1200
/-- YosemitechY520.h line 32: stable reading 10sec after "StartMeasurement". -/
def Y520_DOC_STABLE_MS : Nat := 10 * 1000

/-! ## Resolutions quoted in the header documentation -/

/-- YosemitechY511.h line 49: "Resolution is 0.01 NTU". -/
def Y511_DOC_TURB_RESOLUTION : ℚ := 1 / 100
/-- YosemitechY511.h line 58: "Resolution is 0.1 °C". -/
def Y511_DOC_TEMP_RESOLUTION : ℚ := 1 / 10
/-- YosemitechY520.h line 22: "Resolution is 0.1 µS/cm". -/
def Y520_DOC_COND_RESOLUTION : ℚ := 1 / 10
/-- YosemitechY520.h line 27: "Resolution is 0.1 °C". -/
def Y520_DOC_TEMP_RESOLUTION : ℚ := 1 / 10

/-! ## The DHT type enumeration -/

/-- The enumerator names of `enum DHTtype` (AOSongDHT.h, lines 74-80). -/
inductive DHTtype where
  | DHT11
  | DHT21
  | AM2301
  | DHT22
  | AM2302
  deriving DecidableEq

/-- The integer value the enumeration gives each name. -/
def DHTtype.value : DHTtype → Nat
  | .DHT11 => 11
  | .DHT21 => 21
  | .AM2301 => 21
  | .DHT22 => 22
  | .AM2302 => 22

/-- All five enumerator names, in declaration order. -/
def DHTtype.all : List DHTtype :=
  [.DHT11, .DHT21, .AM2301, .DHT22, .AM2302]

/-! ## Sensor objects -/

/-- The five driver classes of the headers. -/
inductive SensorType where
  | AOSongDHT
  | Decagon5TM
  | MeterTeros11
  | YosemitechY511
  | YosemitechY520
  deriving DecidableEq

/-- The `*_NUM_VARIABLES` constant each driver header ties to
`Sensor::_numReturnedValues`. -/
def SensorType.numVariables : SensorType → Nat
  | .AOSongDHT => DHT_NUM_VARIABLES
  | .Decagon5TM => TM_NUM_VARIABLES
  | .MeterTeros11 => TEROS11_NUM_VARIABLES
  | .YosemitechY511 => Y511_NUM_VARIABLES
  | .YosemitechY520 => Y520_NUM_VARIABLES

/-- The three timing constants of a driver, in the order the constructors
hand them to the base class. -/
structure TimingProfile where
  warmUpTime_ms : Nat
  stabilizationTime_ms : Nat
  measurementTime_ms : Nat
  deriving DecidableEq

/-- The `*_WARM_UP_TIME_MS`, `*_STABILIZATION_TIME_MS` and
`*_MEASUREMENT_TIME_MS` constants of each driver header. -/
def SensorType.timing : SensorType → TimingProfile
  | .AOSongDHT =>
      ⟨DHT_WARM_UP_TIME_MS, DHT_STABILIZATION_TIME_MS, DHT_MEASUREMENT_TIME_MS⟩
  | .Decagon5TM =>
      ⟨TM_WARM_UP_TIME_MS, TM_STABILIZATION_TIME_MS, TM_MEASUREMENT_TIME_MS⟩
  | .MeterTeros11 =>
      ⟨TEROS11_WARM_UP_TIME_MS, TEROS11_STABILIZATION_TIME_MS,
        TEROS11_MEASUREMENT_TIME_MS⟩
  | .YosemitechY511 =>
      ⟨Y511_WARM_UP_TIME_MS, Y511_STABILIZATION_TIME_MS, Y511_MEASUREMENT_TIME_MS⟩
  | .YosemitechY520 =>
      ⟨Y520_WARM_UP_TIME_MS, Y520_STABILIZATION_TIME_MS, Y520_MEASUREMENT_TIME_MS⟩

/-- The address argument of the three SDI-12 constructor overloads
(`char`, `char*`, `int`). -/
inductive SDI12Address where
  | ofChar (c : Char)
  | ofCString (s : String)
  | ofInt (i : Int)
  deriving DecidableEq

/-- Modelled from the spec: the base class `SDI12Sensors`
(`sensors/SDI12Sensors.h`, not among the sources) as the record of the
arguments its constructor receives, in call order: address, power pin, data
pin, averaging count, sensor name, number of returned values, then the timing
profile warm-up / stabilization / measurement. -/
structure SDI12Sensors where
  SDI12address : SDI12Address
  powerPin : Int
  dataPin : Int
  measurementsToAverage : Nat
  sensorName : String
  numReturnedValues : Nat
  warmUpTime_ms : Nat
  stabilizationTime_ms : Nat
  measurementTime_ms : Nat
  deriving DecidableEq

/-- An Arduino data stream, identified by a handle. -/
structure Stream where
  id : Nat
  deriving DecidableEq

/-- The sensor-model tag the Yosemitech drivers pass on (`Y511`, `Y520`). -/
inductive yosemitechModel where
  | Y511
  | Y520
  deriving DecidableEq

/-- Modelled from the spec: the base class `YosemitechParent`
(`sensors/YosemitechParent.h`, not among the sources) as the record of the
arguments its constructor receives, in call order: Modbus address, stream,
power pin, second power pin, enable pin, averaging count, model, sensor name,
number of returned values, then the timing profile warm-up / stabilization /
measurement. -/
structure YosemitechParent where
  modbusAddress : Nat
  stream : Stream
  powerPin : Int
  powerPin2 : Int
  enablePin : Int
  measurementsToAverage : Nat
  model : yosemitechModel
  sensName : String
  numVariables : Nat
  warmUpTime_ms : Nat
  stabilizationTime_ms : Nat
  measurementTime_ms : Nat
  deriving DecidableEq

/-- The class `AOSongDHT`: its constructor is only declared in the header
(AOSongDHT.h, lines 104-105), so an object is the record of the declared
constructor parameters. -/
structure AOSongDHT where
  powerPin : Int
  dataPin : Int
  type : DHTtype
  measurementsToAverage : Nat
  deriving DecidableEq

/-- The class `Decagon5TM`, a `SDI12Sensors` with no members of its own. -/
structure Decagon5TM extends SDI12Sensors
  deriving DecidableEq

/-- The class `MeterTeros11`, a `SDI12Sensors` with no members of its own. -/
structure MeterTeros11 extends SDI12Sensors
  deriving DecidableEq

/-- The class `YosemitechY511`, a `YosemitechParent` with no members of its own. -/
structure YosemitechY511 extends YosemitechParent
  deriving DecidableEq

/-- The class `YosemitechY520`, a `YosemitechParent` with no members of its own. -/
structure YosemitechY520 extends YosemitechParent
  deriving DecidableEq

/-- Modelled from the spec: the body of the `AOSongDHT` constructor
(`AOSongDHT.cpp`, not among the sources; declared at AOSongDHT.h lines 104-105
with the default `measurementsToAverage = 1`): the object keeps the power pin,
the data pin, the DHT type and the averaging count it is given. -/
def AOSongDHT.construct (powerPin dataPin : Int) (type : DHTtype)
    (measurementsToAverage : Option Nat) : AOSongDHT :=
  ⟨powerPin, dataPin, type, measurementsToAverage.getD 1⟩

/-- Decagon5TM.h lines 79-83: the `char` address constructor. -/
def Decagon5TM.ofChar (SDI12address : Char) (powerPin dataPin : Int)
    (measurementsToAverage : Option Nat) : Decagon5TM :=
  ⟨SDI12Sensors.mk (.ofChar SDI12address) powerPin dataPin
    (measurementsToAverage.getD 1) "Decagon5TM" TM_NUM_VARIABLES
    TM_WARM_UP_TIME_MS TM_STABILIZATION_TIME_MS TM_MEASUREMENT_TIME_MS⟩

/-- Decagon5TM.h lines 84-88: the `char*` address constructor. -/
def Decagon5TM.ofCString (SDI12address : String) (powerPin dataPin : Int)
    (measurementsToAverage : Option Nat) : Decagon5TM :=
  ⟨SDI12Sensors.mk (.ofCString SDI12address) powerPin dataPin
    (measurementsToAverage.getD 1) "Decagon5TM" TM_NUM_VARIABLES
    TM_WARM_UP_TIME_MS TM_STABILIZATION_TIME_MS TM_MEASUREMENT_TIME_MS⟩

/-- Decagon5TM.h lines 89-93: the `int` address constructor. -/
def Decagon5TM.ofInt (SDI12address : Int) (powerPin dataPin : Int)
    (measurementsToAverage : Option Nat) : Decagon5TM :=
  ⟨SDI12Sensors.mk (.ofInt SDI12address) powerPin dataPin
    (measurementsToAverage.getD 1) "Decagon5TM" TM_NUM_VARIABLES
    TM_WARM_UP_TIME_MS TM_STABILIZATION_TIME_MS TM_MEASUREMENT_TIME_MS⟩

/-- MeterTeros11.h lines 91-96: the `char` address constructor. -/
def MeterTeros11.ofChar (SDI12address : Char) (powerPin dataPin : Int)
    (measurementsToAverage : Option Nat) : MeterTeros11 :=
  ⟨SDI12Sensors.mk (.ofChar SDI12address) powerPin dataPin
    (measurementsToAverage.getD 1) "MeterTeros11" TEROS11_NUM_VARIABLES
    TEROS11_WARM_UP_TIME_MS TEROS11_STABILIZATION_TIME_MS
    TEROS11_MEASUREMENT_TIME_MS⟩

/-- MeterTeros11.h lines 97-102: the `char*` address constructor. -/
def MeterTeros11.ofCString (SDI12address : String) (powerPin dataPin : Int)
    (measurementsToAverage : Option Nat) : MeterTeros11 :=
  ⟨SDI12Sensors.mk (.ofCString SDI12address) powerPin dataPin
    (measurementsToAverage.getD 1) "MeterTeros11" TEROS11_NUM_VARIABLES
    TEROS11_WARM_UP_TIME_MS TEROS11_STABILIZATION_TIME_MS
    TEROS11_MEASUREMENT_TIME_MS⟩

/-- MeterTeros11.h lines 103-108: the `int` address constructor. -/
def MeterTeros11.ofInt (SDI12address : Int) (powerPin dataPin : Int)
    (measurementsToAverage : Option Nat) : MeterTeros11 :=
  ⟨SDI12Sensors.mk (.ofInt SDI12address) powerPin dataPin
    (measurementsToAverage.getD 1) "MeterTeros11" TEROS11_NUM_VARIABLES
    TEROS11_WARM_UP_TIME_MS TEROS11_STABILIZATION_TIME_MS
    TEROS11_MEASUREMENT_TIME_MS⟩

/-- YosemitechY511.h lines 150-157: the `Stream*` constructor. -/
def YosemitechY511.ofStreamPtr (modbusAddress : Nat) (stream : Stream)
    (powerPin : Int) (powerPin2 enablePin : Option Int)
    (measurementsToAverage : Option Nat) : YosemitechY511 :=
  ⟨YosemitechParent.mk modbusAddress stream powerPin (powerPin2.getD (-1))
    (enablePin.getD (-1)) (measurementsToAverage.getD 1) .Y511
    "YosemitechY511" Y511_NUM_VARIABLES Y511_WARM_UP_TIME_MS
    Y511_STABILIZATION_TIME_MS Y511_MEASUREMENT_TIME_MS⟩

/-- YosemitechY511.h lines 161-168: the `Stream&` constructor. -/
def YosemitechY511.ofStreamRef (modbusAddress : Nat) (stream : Stream)
    (powerPin : Int) (powerPin2 enablePin : Option Int)
    (measurementsToAverage : Option Nat) : YosemitechY511 :=
  ⟨YosemitechParent.mk modbusAddress stream powerPin (powerPin2.getD (-1))
    (enablePin.getD (-1)) (measurementsToAverage.getD 1) .Y511
    "YosemitechY511" Y511_NUM_VARIABLES Y511_WARM_UP_TIME_MS
    Y511_STABILIZATION_TIME_MS Y511_MEASUREMENT_TIME_MS⟩

/-- YosemitechY520.h lines 67-74: the `Stream*` constructor. -/
def YosemitechY520.ofStreamPtr (modbusAddress : Nat) (stream : Stream)
    (powerPin : Int) (powerPin2 enablePin : Option Int)
    (measurementsToAverage : Option Nat) : YosemitechY520 :=
  ⟨YosemitechParent.mk modbusAddress stream powerPin (powerPin2.getD (-1))
    (enablePin.getD (-1)) (measurementsToAverage.getD 1) .Y520
    "YosemitechY520" Y520_NUM_VARIABLES Y520_WARM_UP_TIME_MS
    Y520_STABILIZATION_TIME_MS Y520_MEASUREMENT_TIME_MS⟩

/-- YosemitechY520.h lines 75-82: the `Stream&` constructor. -/
def YosemitechY520.ofStreamRef (modbusAddress : Nat) (stream : Stream)
    (powerPin : Int) (powerPin2 enablePin : Option Int)
    (measurementsToAverage : Option Nat) : YosemitechY520 :=
  ⟨YosemitechParent.mk modbusAddress stream powerPin (powerPin2.getD (-1))
    (enablePin.getD (-1)) (measurementsToAverage.getD 1) .Y520
    "YosemitechY520" Y520_NUM_VARIABLES Y520_WARM_UP_TIME_MS
    Y520_STABILIZATION_TIME_MS Y520_MEASUREMENT_TIME_MS⟩

/-! ## Variables -/

/-- A `Sensor*`: a pointer to an object of one of the five driver classes. -/
inductive SensorPtr where
  | AOSongDHT (p : AOSongDHT)
  | Decagon5TM (p : Decagon5TM)
  | MeterTeros11 (p : MeterTeros11)
  | YosemitechY511 (p : YosemitechY511)
  | YosemitechY520 (p : YosemitechY520)
  deriving DecidableEq

/-- The driver class of the object a `Sensor*` points to. -/
def SensorPtr.type : SensorPtr → SensorType
  | .AOSongDHT _ => .AOSongDHT
  | .Decagon5TM _ => .Decagon5TM
  | .MeterTeros11 _ => .MeterTeros11
  | .YosemitechY511 _ => .YosemitechY511
  | .YosemitechY520 _ => .YosemitechY520

/-- Modelled from the spec: the base class `Variable` (`VariableBase.h`, not
among the sources) as the record of what its constructors receive: the parent
sensor (none while unbound), the index into the parent's result buffer, the
decimal resolution, the variable name, the unit label, the short code and the
optional external identifier. -/
structure Variable where
  parentSense : Option SensorPtr
  sensorVarNum : Nat
  decimalResolution : Nat
  varName : String
  varUnit : String
  varCode : String
  uuid : Option String
  deriving DecidableEq

/-- The seven-argument base constructor `Variable(parentSense, sensorVarNum,
decimalResolution, varName, varUnit, varCode, uuid)`. -/
def Variable.bound (parentSense : SensorPtr) (sensorVarNum decimalResolution : Nat)
    (varName varUnit varCode uuid : String) : Variable :=
  ⟨some parentSense, sensorVarNum, decimalResolution, varName, varUnit, varCode,
    some uuid⟩

/-- The five-argument base constructor
`Variable(sensorVarNum, decimalResolution, varName, varUnit, varCode)`. -/
def Variable.unbound (sensorVarNum decimalResolution : Nat)
    (varName varUnit varCode : String) : Variable :=
  ⟨none, sensorVarNum, decimalResolution, varName, varUnit, varCode, none⟩

/-- The bound constructor of `AOSongDHT_Humidity`
(AOSongDHT.h lines 150-154);
`uuid` defaults to the empty string and `varCode` to "DHTHumidity". -/
def AOSongDHT_Humidity (parentSense : AOSongDHT)
    (uuid varCode : Option String) : Variable :=
  Variable.bound (.AOSongDHT parentSense) (toUInt8 DHT_HUMIDITY_VAR_NUM)
    (toUInt8 DHT_HUMIDITY_RESOLUTION)
    "relativeHumidity" "percent" (varCode.getD "DHTHumidity") (uuid.getD "")

/-- The no-argument constructor of `AOSongDHT_Humidity` (AOSongDHT.h lines 160-163). -/
def AOSongDHT_Humidity.unbound : Variable :=
  Variable.unbound (toUInt8 DHT_HUMIDITY_VAR_NUM) (toUInt8 DHT_HUMIDITY_RESOLUTION)
    "relativeHumidity" "percent" "DHTHumidity"

/-- The bound constructor of `AOSongDHT_Temp`
(AOSongDHT.h lines 189-193);
`uuid` defaults to the empty string and `varCode` to "DHTTemp". -/
def AOSongDHT_Temp (parentSense : AOSongDHT)
    (uuid varCode : Option String) : Variable :=
  Variable.bound (.AOSongDHT parentSense) (toUInt8 DHT_TEMP_VAR_NUM)
    (toUInt8 DHT_TEMP_RESOLUTION)
    "temperature" "degreeCelsius" (varCode.getD "DHTTemp") (uuid.getD "")

/-- The no-argument constructor of `AOSongDHT_Temp` (AOSongDHT.h lines 199-202). -/
def AOSongDHT_Temp.unbound : Variable :=
  Variable.unbound (toUInt8 DHT_TEMP_VAR_NUM) (toUInt8 DHT_TEMP_RESOLUTION)
    "temperature" "degreeCelsius" "DHTTemp"

/-- The bound constructor of `AOSongDHT_HI`
(AOSongDHT.h lines 229-233);
`uuid` defaults to the empty string and `varCode` to "DHTHI". -/
def AOSongDHT_HI (parentSense : AOSongDHT)
    (uuid varCode : Option String) : Variable :=
  Variable.bound (.AOSongDHT parentSense) (toUInt8 DHT_HI_VAR_NUM)
    (toUInt8 DHT_HI_RESOLUTION)
    "heatIndex" "degreeCelsius" (varCode.getD "DHTHI") (uuid.getD "")

/-- The no-argument constructor of `AOSongDHT_HI` (AOSongDHT.h lines 239-241). -/
def AOSongDHT_HI.unbound : Variable :=
  Variable.unbound (toUInt8 DHT_HI_VAR_NUM) (toUInt8 DHT_HI_RESOLUTION)
    "heatIndex" "degreeCelsius" "DHTHI"

/-- The bound constructor of `Decagon5TM_Ea`
(Decagon5TM.h lines 116-120);
`uuid` defaults to the empty string and `varCode` to "SoilEa". -/
def Decagon5TM_Ea (parentSense : Decagon5TM)
    (uuid varCode : Option String) : Variable :=
  Variable.bound (.Decagon5TM parentSense) (toUInt8 TM_EA_VAR_NUM)
    (toUInt8 TM_EA_RESOLUTION)
    "permittivity" "faradPerMeter" (varCode.getD "SoilEa") (uuid.getD "")

/-- The no-argument constructor of `Decagon5TM_Ea` (Decagon5TM.h lines 126-128). -/
def Decagon5TM_Ea.unbound : Variable :=
  Variable.unbound (toUInt8 TM_EA_VAR_NUM) (toUInt8 TM_EA_RESOLUTION)
    "permittivity" "faradPerMeter" "SoilEa"

/-- The bound constructor of `Decagon5TM_Temp`
(Decagon5TM.h lines 148-152);
`uuid` defaults to the empty string and `varCode` to "SoilTemp". -/
def Decagon5TM_Temp (parentSense : Decagon5TM)
    (uuid varCode : Option String) : Variable :=
  Variable.bound (.Decagon5TM parentSense) (toUInt8 TM_TEMP_VAR_NUM)
    (toUInt8 TM_TEMP_RESOLUTION)
    "temperature" "degreeCelsius" (varCode.getD "SoilTemp") (uuid.getD "")

/-- The no-argument constructor of `Decagon5TM_Temp` (Decagon5TM.h lines 158-160). -/
def Decagon5TM_Temp.unbound : Variable :=
  Variable.unbound (toUInt8 TM_TEMP_VAR_NUM) (toUInt8 TM_TEMP_RESOLUTION)
    "temperature" "degreeCelsius" "SoilTemp"

/-- The bound constructor of `Decagon5TM_VWC`
(Decagon5TM.h lines 180-184);
`uuid` defaults to the empty string and `varCode` to "SoilVWC". -/
def Decagon5TM_VWC (parentSense : Decagon5TM)
    (uuid varCode : Option String) : Variable :=
  Variable.bound (.Decagon5TM parentSense) (toUInt8 TM_VWC_VAR_NUM)
    (toUInt8 TM_VWC_RESOLUTION)
    "volumetricWaterContent" "percent" (varCode.getD "SoilVWC") (uuid.getD "")

/-- The no-argument constructor of `Decagon5TM_VWC` (Decagon5TM.h lines 190-192). -/
def Decagon5TM_VWC.unbound : Variable :=
  Variable.unbound (toUInt8 TM_VWC_VAR_NUM) (toUInt8 TM_VWC_RESOLUTION)
    "volumetricWaterContent" "percent" "SoilVWC"

/-- The bound constructor of `MeterTeros11_Ea`
(MeterTeros11.h lines 128-132);
`uuid` defaults to the empty string and `varCode` to "SoilEa". -/
def MeterTeros11_Ea (parentSense : MeterTeros11)
    (uuid varCode : Option String) : Variable :=
  Variable.bound (.MeterTeros11 parentSense) (toUInt8 TEROS11_EA_VAR_NUM)
    (toUInt8 TEROS11_EA_RESOLUTION)
    "permittivity" "faradPerMeter" (varCode.getD "SoilEa") (uuid.getD "")

/-- The no-argument constructor of `MeterTeros11_Ea` (MeterTeros11.h lines 138-141). -/
def MeterTeros11_Ea.unbound : Variable :=
  Variable.unbound (toUInt8 TEROS11_EA_VAR_NUM) (toUInt8 TEROS11_EA_RESOLUTION)
    "permittivity" "faradPerMeter" "SoilEa"

/-- The bound constructor of `MeterTeros11_Temp`
(MeterTeros11.h lines 161-165);
`uuid` defaults to the empty string and `varCode` to "SoilTemp". -/
def MeterTeros11_Temp (parentSense : MeterTeros11)
    (uuid varCode : Option String) : Variable :=
  Variable.bound (.MeterTeros11 parentSense) (toUInt8 TEROS11_TEMP_VAR_NUM)
    (toUInt8 TEROS11_TEMP_RESOLUTION)
    "temperature" "degreeCelsius" (varCode.getD "SoilTemp") (uuid.getD "")

/-- The no-argument constructor of `MeterTeros11_Temp` (MeterTeros11.h lines 171-174). -/
def MeterTeros11_Temp.unbound : Variable :=
  Variable.unbound (toUInt8 TEROS11_TEMP_VAR_NUM) (toUInt8 TEROS11_TEMP_RESOLUTION)
    "temperature" "degreeCelsius" "SoilTemp"

/-- The bound constructor of `MeterTeros11_VWC`
(MeterTeros11.h lines 194-198);
`uuid` defaults to the empty string and `varCode` to "SoilVWC". -/
def MeterTeros11_VWC (parentSense : MeterTeros11)
    (uuid varCode : Option String) : Variable :=
  Variable.bound (.MeterTeros11 parentSense) (toUInt8 TEROS11_VWC_VAR_NUM)
    (toUInt8 TEROS11_VWC_RESOLUTION)
    "volumetricWaterContent" "percent" (varCode.getD "SoilVWC") (uuid.getD "")

/-- The no-argument constructor of `MeterTeros11_VWC` (MeterTeros11.h lines 204-207). -/
def MeterTeros11_VWC.unbound : Variable :=
  Variable.unbound (toUInt8 TEROS11_VWC_VAR_NUM) (toUInt8 TEROS11_VWC_RESOLUTION)
    "volumetricWaterContent" "percent" "SoilVWC"

/-- The bound constructor of `YosemitechY511_Turbidity`
(YosemitechY511.h lines 197-202);
`uuid` defaults to the empty string and `varCode` to "Y511Turbidity". -/
def YosemitechY511_Turbidity (parentSense : YosemitechY511)
    (uuid varCode : Option String) : Variable :=
  Variable.bound (.YosemitechY511 parentSense) (toUInt8 Y511_TURB_VAR_NUM)
    (toUInt8 Y511_TURB_RESOLUTION)
    "turbidity" "nephelometricTurbidityUnit" (varCode.getD "Y511Turbidity") (uuid.getD "")

/-- The no-argument constructor of `YosemitechY511_Turbidity` (YosemitechY511.h lines 209-212). -/
def YosemitechY511_Turbidity.unbound : Variable :=
  Variable.unbound (toUInt8 Y511_TURB_VAR_NUM) (toUInt8 Y511_TURB_RESOLUTION)
    "turbidity" "nephelometricTurbidityUnit" "Y511Turbidity"

/-- The bound constructor of `YosemitechY511_Temp`
(YosemitechY511.h lines 241-246);
`uuid` defaults to the empty string and `varCode` to "Y511Temp". -/
def YosemitechY511_Temp (parentSense : YosemitechY511)
    (uuid varCode : Option String) : Variable :=
  Variable.bound (.YosemitechY511 parentSense) (toUInt8 Y511_TEMP_VAR_NUM)
    (toUInt8 Y511_TEMP_RESOLUTION)
    "temperature" "degreeCelsius" (varCode.getD "Y511Temp") (uuid.getD "")

/-- The no-argument constructor of `YosemitechY511_Temp` (YosemitechY511.h lines 253-256). -/
def YosemitechY511_Temp.unbound : Variable :=
  Variable.unbound (toUInt8 Y511_TEMP_VAR_NUM) (toUInt8 Y511_TEMP_RESOLUTION)
    "temperature" "degreeCelsius" "Y511Temp"

/-- The bound constructor of `YosemitechY520_Cond`
(YosemitechY520.h lines 99-104);
`uuid` defaults to the empty string and `varCode` to "Y520Cond". -/
def YosemitechY520_Cond (parentSense : YosemitechY520)
    (uuid varCode : Option String) : Variable :=
  Variable.bound (.YosemitechY520 parentSense) (toUInt8 Y520_COND_VAR_NUM)
    (toUInt8 Y520_COND_RESOLUTION)
    "specificConductance" "microsiemenPerCentimeter" (varCode.getD "Y520Cond") (uuid.getD "")

/-- The no-argument constructor of `YosemitechY520_Cond` (YosemitechY520.h lines 111-114). -/
def YosemitechY520_Cond.unbound : Variable :=
  Variable.unbound (toUInt8 Y520_COND_VAR_NUM) (toUInt8 Y520_COND_RESOLUTION)
    "specificConductance" "microsiemenPerCentimeter" "Y520Cond"

/-- The bound constructor of `YosemitechY520_Temp`
(YosemitechY520.h lines 134-139);
`uuid` defaults to the empty string and `varCode` to "Y520Temp". -/
def YosemitechY520_Temp (parentSense : YosemitechY520)
    (uuid varCode : Option String) : Variable :=
  Variable.bound (.YosemitechY520 parentSense) (toUInt8 Y520_TEMP_VAR_NUM)
    (toUInt8 Y520_TEMP_RESOLUTION)
    "temperature" "degreeCelsius" (varCode.getD "Y520Temp") (uuid.getD "")

/-- The no-argument constructor of `YosemitechY520_Temp` (YosemitechY520.h lines 146-149). -/
def YosemitechY520_Temp.unbound : Variable :=
  Variable.unbound (toUInt8 Y520_TEMP_VAR_NUM) (toUInt8 Y520_TEMP_RESOLUTION)
    "temperature" "degreeCelsius" "Y520Temp"

/-- The thirteen variable classes of the five headers. -/
inductive VariableClass where
  | AOSongDHT_Humidity
  | AOSongDHT_Temp
  | AOSongDHT_HI
  | Decagon5TM_Ea
  | Decagon5TM_Temp
  | Decagon5TM_VWC
  | MeterTeros11_Ea
  | MeterTeros11_Temp
  | MeterTeros11_VWC
  | YosemitechY511_Turbidity
  | YosemitechY511_Temp
  | YosemitechY520_Cond
  | YosemitechY520_Temp
  deriving DecidableEq

/-- All variable classes, header by header. -/
def VariableClass.all : List VariableClass :=
  [.AOSongDHT_Humidity, .AOSongDHT_Temp, .AOSongDHT_HI,
   .Decagon5TM_Ea, .Decagon5TM_Temp, .Decagon5TM_VWC,
   .MeterTeros11_Ea, .MeterTeros11_Temp, .MeterTeros11_VWC,
   .YosemitechY511_Turbidity, .YosemitechY511_Temp,
   .YosemitechY520_Cond, .YosemitechY520_Temp]

/-- The driver class named by the `parentSense` parameter of the bound
constructor. -/
def VariableClass.parentType : VariableClass → SensorType
  | .AOSongDHT_Humidity => .AOSongDHT
  | .AOSongDHT_Temp => .AOSongDHT
  | .AOSongDHT_HI => .AOSongDHT
  | .Decagon5TM_Ea => .Decagon5TM
  | .Decagon5TM_Temp => .Decagon5TM
  | .Decagon5TM_VWC => .Decagon5TM
  | .MeterTeros11_Ea => .MeterTeros11
  | .MeterTeros11_Temp => .MeterTeros11
  | .MeterTeros11_VWC => .MeterTeros11
  | .YosemitechY511_Turbidity => .YosemitechY511
  | .YosemitechY511_Temp => .YosemitechY511
  | .YosemitechY520_Cond => .YosemitechY520
  | .YosemitechY520_Temp => .YosemitechY520

/-- The object type behind each driver class. -/
def SensorType.Obj : SensorType → Type
  | .AOSongDHT => ModularSensors.AOSongDHT
  | .Decagon5TM => ModularSensors.Decagon5TM
  | .MeterTeros11 => ModularSensors.MeterTeros11
  | .YosemitechY511 => ModularSensors.YosemitechY511
  | .YosemitechY520 => ModularSensors.YosemitechY520

/-- The bound constructor of a variable class. -/
def VariableClass.bound :
    (c : VariableClass) → c.parentType.Obj → Option String → Option String → Variable
  | .AOSongDHT_Humidity, p, uuid, varCode =>
      ModularSensors.AOSongDHT_Humidity p uuid varCode
  | .AOSongDHT_Temp, p, uuid, varCode =>
      ModularSensors.AOSongDHT_Temp p uuid varCode
  | .AOSongDHT_HI, p, uuid, varCode =>
      ModularSensors.AOSongDHT_HI p uuid varCode
  | .Decagon5TM_Ea, p, uuid, varCode =>
      ModularSensors.Decagon5TM_Ea p uuid varCode
  | .Decagon5TM_Temp, p, uuid, varCode =>
      ModularSensors.Decagon5TM_Temp p uuid varCode
  | .Decagon5TM_VWC, p, uuid, varCode =>
      ModularSensors.Decagon5TM_VWC p uuid varCode
  | .MeterTeros11_Ea, p, uuid, varCode =>
      ModularSensors.MeterTeros11_Ea p uuid varCode
  | .MeterTeros11_Temp, p, uuid, varCode =>
      ModularSensors.MeterTeros11_Temp p uuid varCode
  | .MeterTeros11_VWC, p, uuid, varCode =>
      ModularSensors.MeterTeros11_VWC p uuid varCode
  | .YosemitechY511_Turbidity, p, uuid, varCode =>
      ModularSensors.YosemitechY511_Turbidity p uuid varCode
  | .YosemitechY511_Temp, p, uuid, varCode =>
      ModularSensors.YosemitechY511_Temp p uuid varCode
  | .YosemitechY520_Cond, p, uuid, varCode =>
      ModularSensors.YosemitechY520_Cond p uuid varCode
  | .YosemitechY520_Temp, p, uuid, varCode =>
      ModularSensors.YosemitechY520_Temp p uuid varCode

/-- The no-argument constructor of a variable class. -/
def VariableClass.unbound : VariableClass → Variable
  | .AOSongDHT_Humidity => ModularSensors.AOSongDHT_Humidity.unbound
  | .AOSongDHT_Temp => ModularSensors.AOSongDHT_Temp.unbound
  | .AOSongDHT_HI => ModularSensors.AOSongDHT_HI.unbound
  | .Decagon5TM_Ea => ModularSensors.Decagon5TM_Ea.unbound
  | .Decagon5TM_Temp => ModularSensors.Decagon5TM_Temp.unbound
  | .Decagon5TM_VWC => ModularSensors.Decagon5TM_VWC.unbound
  | .MeterTeros11_Ea => ModularSensors.MeterTeros11_Ea.unbound
  | .MeterTeros11_Temp => ModularSensors.MeterTeros11_Temp.unbound
  | .MeterTeros11_VWC => ModularSensors.MeterTeros11_VWC.unbound
  | .YosemitechY511_Turbidity => ModularSensors.YosemitechY511_Turbidity.unbound
  | .YosemitechY511_Temp => ModularSensors.YosemitechY511_Temp.unbound
  | .YosemitechY520_Cond => ModularSensors.YosemitechY520_Cond.unbound
  | .YosemitechY520_Temp => ModularSensors.YosemitechY520_Temp.unbound

/-- The default short code each bound constructor's documentation names
("Default is ..." in the `@param varCode` comments). -/
def VariableClass.documentedVarCode : VariableClass → String
  | .AOSongDHT_Humidity => "DHTHumidity"
  | .AOSongDHT_Temp => "DHTTemp"
  | .AOSongDHT_HI => "DHTHI"
  | .Decagon5TM_Ea => "SoilEa"
  | .Decagon5TM_Temp => "SoilTemp"
  | .Decagon5TM_VWC => "SoilVWC"
  | .MeterTeros11_Ea => "SoilEa"
  | .MeterTeros11_Temp => "SoilTemp"
  | .MeterTeros11_VWC => "SoilVWC"
  | .YosemitechY511_Turbidity => "Y511Turbidity"
  | .YosemitechY511_Temp => "Y511Temp"
  | .YosemitechY520_Cond => "Y520Cond"
  | .YosemitechY520_Temp => "Y520Temp"

/-- The resolution the documentation states for a Yosemitech variable. -/
def VariableClass.documentedResolution : VariableClass → Option ℚ
  | .YosemitechY511_Turbidity => some Y511_DOC_TURB_RESOLUTION
  | .YosemitechY511_Temp => some Y511_DOC_TEMP_RESOLUTION
  | .YosemitechY520_Cond => some Y520_DOC_COND_RESOLUTION
  | .YosemitechY520_Temp => some Y520_DOC_TEMP_RESOLUTION
  | _ => none

/-! ## The measurement lifecycle

The lifecycle controller, the protocol adapter and the aggregator live in the
base classes (`SensorBase`, `SDI12Sensors`, `YosemitechParent`), which the five
headers only include.  They are modelled here from sections 3, 4 and 6 of the
specification.  Time is a natural number of milliseconds on a monotonic clock;
readings are exact rationals.
-/

/-- Modelled from the spec: the lifecycle states of section 4.1 (the state
machine of the absent `SensorBase`). -/
inductive Phase where
  | Uninitialized
  | PowerRequested
  | WarmingUp
  | Stabilizing
  | MeasurementTriggered
  | AwaitingResult
  | Averaging
  | Failed
  | Complete
  | PowerDown
  deriving DecidableEq

/-- Modelled from the spec: the outcomes of the adapter operation
`requestMeasurement(address) -> handle | Error::BusBusy | Error::NoResponse`
of section 4.2 (the absent protocol layer). -/
inductive RequestResult where
  | handle
  | BusBusy
  | NoResponse
  deriving DecidableEq

/-- Modelled from the spec: the outcomes of the adapter operation
`pollResult(handle) -> Pending | Ready(rawValues) | Error::Malformed | Error::Timeout`
of section 4.2 (the absent protocol layer); a raw value may be undefined. -/
inductive PollResult where
  | Pending
  | Ready (rawValues : List (Option ℚ))
  | Malformed
  | Timeout
  deriving DecidableEq

/-- Modelled from the spec: the immutable configuration of a sensor (section 3
and section 6, construction): timing profile, number of quantities K, averaging
count N, power pin (negative = absent, always powered), and the fixed retry
budget and grace margin of section 4.1. -/
structure LifecycleConfig where
  timing : TimingProfile
  numReturnedValues : Nat
  measurementsToAverage : Nat
  powerPin : Int
  retryBudget : Nat
  graceMargin : Nat
  deriving DecidableEq

/-- The lifecycle configuration of a driver: its timing constants and its
number of returned values, with the caller's pin and averaging count. -/
def SensorType.lifecycleConfig (d : SensorType) (powerPin : Int)
    (measurementsToAverage retryBudget graceMargin : Nat) : LifecycleConfig :=
  ⟨d.timing, d.numVariables, measurementsToAverage, powerPin, retryBudget, graceMargin⟩

/-- Modelled from the spec: one running-average accumulator of the result
buffer (sections 3 and 4.4): a running sum paired with a sample count. -/
structure Accumulator where
  sum : ℚ
  count : Nat
  deriving DecidableEq

/-- Modelled from the spec: folding one reading into an accumulator (section
4.4): an undefined reading is excluded from the sum and from the count. -/
def Accumulator.add (a : Accumulator) (reading : Option ℚ) : Accumulator :=
  match reading with
  | some v => ⟨a.sum + v, a.count + 1⟩
  | none => a

/-- Modelled from the spec: the current average of an accumulator (section
4.4), undefined while no reading has been folded in. -/
def Accumulator.average (a : Accumulator) : Option ℚ :=
  if a.count = 0 then none else some (a.sum / a.count)

/-- Modelled from the spec: what the external collaborators answer during one
scheduler tick (section 6): the clock, and what the adapter returns if the
lifecycle invokes its request or its poll operation on this tick. -/
structure Tick where
  now : Nat
  request : RequestResult
  poll : PollResult
  deriving DecidableEq

/-- Modelled from the spec: the mutable part of a sensor (section 3): lifecycle
state, phase-entry timestamp, retry counter, number of samples collected in
this cycle, the result buffer of K accumulators, and the published reading. -/
structure SensorState where
  phase : Phase
  phaseEntry : Nat
  retries : Nat
  sampleCount : Nat
  resultBuffer : List Accumulator
  published : List (Option ℚ)
  deriving DecidableEq

/-- Modelled from the spec: a freshly constructed sensor (section 3): state
`Uninitialized`, empty accumulators, nothing published. -/
def SensorState.init (cfg : LifecycleConfig) : SensorState :=
  { phase := .Uninitialized
    phaseEntry := 0
    retries := 0
    sampleCount := 0
    resultBuffer := List.replicate cfg.numReturnedValues ⟨0, 0⟩
    published := List.replicate cfg.numReturnedValues none }

/-- Modelled from the spec: the single-step advance of the lifecycle state
machine (section 4.1, the `step()` of section 6), at most one phase per tick.
Warm-up and stabilization are gated on the time elapsed since phase entry;
`MeasurementTriggered` invokes the adapter's request; `AwaitingResult` polls
it, a response with the wrong number of quantities counting as a failure and a
pending result timing out after the measurement duration plus the grace
margin; `Averaging` loops until N samples are collected and then publishes the
averages; `Failed` re-attempts while the retry budget lasts.  When the budget
is exhausted the attempt surfaces as missing data to the aggregator (section
7), which leaves it out of sum and count (section 4.4), and the cycle completes
with the averages published (section 8): a quantity without any collected
reading is published as undefined, so a sensor that never produced a valid
sample reports "no data" for all its quantities (sections 4.1 and 7). -/
def step (cfg : LifecycleConfig) (t : Tick) (s : SensorState) : SensorState :=
  match s.phase with
  | .Uninitialized =>
      if cfg.powerPin < 0 then { s with phase := .WarmingUp, phaseEntry := t.now }
      else { s with phase := .PowerRequested, phaseEntry := t.now }
  | .PowerRequested => { s with phase := .WarmingUp, phaseEntry := t.now }
  | .WarmingUp =>
      if cfg.timing.warmUpTime_ms ≤ t.now - s.phaseEntry then
        { s with phase := .Stabilizing, phaseEntry := t.now }
      else s
  | .Stabilizing =>
      if cfg.timing.stabilizationTime_ms ≤ t.now - s.phaseEntry then
        { s with phase := .MeasurementTriggered, phaseEntry := t.now }
      else s
  | .MeasurementTriggered =>
      match t.request with
      | .handle => { s with phase := .AwaitingResult, phaseEntry := t.now }
      | .BusBusy => s
      | .NoResponse => { s with phase := .Failed, phaseEntry := t.now }
  | .AwaitingResult =>
      match t.poll with
      | .Ready rawValues =>
          if rawValues.length = cfg.numReturnedValues then
            { s with
              phase := .Averaging
              phaseEntry := t.now
              sampleCount := s.sampleCount + 1
              resultBuffer := List.zipWith Accumulator.add s.resultBuffer rawValues }
          else { s with phase := .Failed, phaseEntry := t.now }
      | .Malformed => { s with phase := .Failed, phaseEntry := t.now }
      | .Timeout => { s with phase := .Failed, phaseEntry := t.now }
      | .Pending =>
          if cfg.timing.measurementTime_ms + cfg.graceMargin < t.now - s.phaseEntry then
            { s with phase := .Failed, phaseEntry := t.now }
          else s
  | .Averaging =>
      if s.sampleCount < cfg.measurementsToAverage then
        { s with phase := .MeasurementTriggered, phaseEntry := t.now }
      else
        { s with
          phase := .Complete
          phaseEntry := t.now
          published := s.resultBuffer.map Accumulator.average }
  | .Failed =>
      if s.retries < cfg.retryBudget then
        { s with phase := .MeasurementTriggered, phaseEntry := t.now, retries := s.retries + 1 }
      else
        { s with
          phase := .Complete
          phaseEntry := t.now
          published := s.resultBuffer.map Accumulator.average }
  | .Complete => s
  | .PowerDown => SensorState.init cfg

/-- Modelled from the spec: the caller stops polling a sensor (sections 4.1 and
5): the machine goes to `PowerDown` whatever its phase. -/
def stopPolling (s : SensorState) : SensorState :=
  { s with phase := .PowerDown }

/-- Modelled from the spec: the scheduler (section 4.3, absent from the sources)
polling one sensor over a sequence of ticks, one single-step advance per tick. -/
def run (cfg : LifecycleConfig) (s : SensorState) (ticks : List Tick) : SensorState :=
  ticks.foldl (fun st t => step cfg t st) s

/-- The state of a fresh sensor after the scheduler has polled it on the first
`n` ticks of a tick stream. -/
def runStream (cfg : LifecycleConfig) (ticks : Nat → Tick) (n : Nat) : SensorState :=
  run cfg (SensorState.init cfg) ((List.range n).map ticks)

/-- A tick on which a measurement attempt cannot succeed: the bus is granted, so
the request is either accepted or unanswered, and the adapter never has K raw
values ready (it is pending, times out, or answers malformed). -/
def Tick.fails (cfg : LifecycleConfig) (t : Tick) : Prop :=
  t.request ≠ .BusBusy ∧
    match t.poll with
    | .Ready rawValues => rawValues.length ≠ cfg.numReturnedValues
    | _ => True

/-- Whether a tick fails can be computed. -/
instance Tick.decidableFails (cfg : LifecycleConfig) (t : Tick) : Decidable (t.fails cfg) := by
  unfold Tick.fails
  cases t.poll <;> infer_instance

/-- An upper bound on the ticks one measurement attempt takes once the clock
advances by at least 1 ms per tick: request, wait for the time-out, fail,
re-attempt. -/
def roundTicks (cfg : LifecycleConfig) : Nat :=
  cfg.timing.measurementTime_ms + cfg.graceMargin + 4

/-- An upper bound on the number of ticks a sensor in state `s` still needs to
reach `Complete` when the next tick comes at time `now`, every tick fails and
the clock advances by at least 1 ms per tick. -/
def ticksLeft (cfg : LifecycleConfig) (s : SensorState) (now : Nat) : Nat :=
  match s.phase with
  | .Complete => 0
  | .Failed => 1 + (cfg.retryBudget - s.retries) * roundTicks cfg
  | .AwaitingResult =>
      (s.phaseEntry + cfg.timing.measurementTime_ms + cfg.graceMargin + 1 - now) + 2 +
        (cfg.retryBudget - s.retries) * roundTicks cfg
  | .MeasurementTriggered =>
      roundTicks cfg + (cfg.retryBudget - s.retries) * roundTicks cfg
  | .Averaging =>
      1 + roundTicks cfg + (cfg.retryBudget - s.retries) * roundTicks cfg
  | .Stabilizing =>
      (s.phaseEntry + cfg.timing.stabilizationTime_ms - now) + 1 + roundTicks cfg +
        (cfg.retryBudget - s.retries) * roundTicks cfg
  | .WarmingUp =>
      (s.phaseEntry + cfg.timing.warmUpTime_ms - now) + cfg.timing.stabilizationTime_ms + 2 +
        roundTicks cfg + (cfg.retryBudget - s.retries) * roundTicks cfg
  | .PowerRequested =>
      cfg.timing.warmUpTime_ms + cfg.timing.stabilizationTime_ms + 3 + roundTicks cfg +
        (cfg.retryBudget - s.retries) * roundTicks cfg
  | .Uninitialized =>
      cfg.timing.warmUpTime_ms + cfg.timing.stabilizationTime_ms + 4 + roundTicks cfg +
        (cfg.retryBudget - s.retries) * roundTicks cfg
  | .PowerDown =>
      cfg.timing.warmUpTime_ms + cfg.timing.stabilizationTime_ms + 5 + roundTicks cfg +
        cfg.retryBudget * roundTicks cfg

/-! ### Concrete cycles -/

/-- A Decagon 5TM on power pin 22 averaging two samples, with a retry budget of
three and no grace margin. -/
def cfg5TM : LifecycleConfig := SensorType.lifecycleConfig .Decagon5TM 22 2 3 0

/-- A Meter Teros 11 on power pin 22 taking a single sample, with a retry
budget of three and no grace margin. -/
def cfgTeros11 : LifecycleConfig := SensorType.lifecycleConfig .MeterTeros11 22 1 3 0

/-- A tick on which the device does not respond at all. -/
def silentTick (now : Nat) : Tick := ⟨now, .NoResponse, .Timeout⟩

/-- A device that never responds, polled every 50 ms from time 0. -/
def silentEvery50 : Nat → Tick := fun j => silentTick (50 * j)

/-- The Meter Teros 11 of `cfgTeros11` started at 0 ms: it is warming up since
the tick at 50 ms. -/
def teros11Warming : SensorState :=
  run cfgTeros11 (SensorState.init cfgTeros11) [silentTick 0, silentTick 50]

/-- The same sensor after a further tick at 300 ms: it is stabilizing since
then. -/
def teros11Stabilizing : SensorState :=
  run cfgTeros11 (SensorState.init cfgTeros11)
    [silentTick 0, silentTick 50, silentTick 300]

/-! # Theorems -/

/-! ## Lifecycle lemmas -/

theorem run_cons (cfg : LifecycleConfig) (s : SensorState) (t : Tick) (ts : List Tick) :
    run cfg s (t :: ts) = run cfg (step cfg t s) ts := rfl

theorem step_warmingUp_early (cfg : LifecycleConfig) (s : SensorState) (t : Tick)
    (hp : s.phase = .WarmingUp) (h0 : s.phaseEntry ≤ t.now)
    (ht : t.now < s.phaseEntry + cfg.timing.warmUpTime_ms) :
    step cfg t s = s := by
  have h : ¬ cfg.timing.warmUpTime_ms ≤ t.now - s.phaseEntry := by omega
  simp [step, hp, h]

theorem step_warmingUp_due (cfg : LifecycleConfig) (s : SensorState) (t : Tick)
    (hp : s.phase = .WarmingUp) (ht : s.phaseEntry + cfg.timing.warmUpTime_ms ≤ t.now) :
    step cfg t s = { s with phase := .Stabilizing, phaseEntry := t.now } := by
  have h : cfg.timing.warmUpTime_ms ≤ t.now - s.phaseEntry := by omega
  simp [step, hp, h]

theorem step_stabilizing_early (cfg : LifecycleConfig) (s : SensorState) (t : Tick)
    (hp : s.phase = .Stabilizing) (h0 : s.phaseEntry ≤ t.now)
    (ht : t.now < s.phaseEntry + cfg.timing.stabilizationTime_ms) :
    step cfg t s = s := by
  have h : ¬ cfg.timing.stabilizationTime_ms ≤ t.now - s.phaseEntry := by omega
  simp [step, hp, h]

theorem step_stabilizing_due (cfg : LifecycleConfig) (s : SensorState) (t : Tick)
    (hp : s.phase = .Stabilizing)
    (ht : s.phaseEntry + cfg.timing.stabilizationTime_ms ≤ t.now) :
    step cfg t s = { s with phase := .MeasurementTriggered, phaseEntry := t.now } := by
  have h : cfg.timing.stabilizationTime_ms ≤ t.now - s.phaseEntry := by omega
  simp [step, hp, h]

theorem run_of_steps_fixed (cfg : LifecycleConfig) (s : SensorState) (ticks : List Tick)
    (h : ∀ u ∈ ticks, step cfg u s = s) : run cfg s ticks = s := by
  induction ticks with
  | nil => rfl
  | cons t ts ih =>
    rw [run_cons, h t (List.mem_cons_self t ts)]
    exact ih (fun u hu => h u (List.mem_cons_of_mem t hu))

/-- C1: every variable class passes to the `Variable` constructor a result-buffer
index strictly below the number of returned values its parent sensor type
declares (3 for AOSongDHT, Decagon5TM and MeterTeros11, 2 for YosemitechY511 and
YosemitechY520), in the bound and in the deferred-binding constructor alike;
the bound constructor attaches a parent of exactly that sensor type. -/
theorem variable_index_lt_numVariables (c : VariableClass) (p : c.parentType.Obj)
    (uuid varCode : Option String) :
    (c.bound p uuid varCode).sensorVarNum < c.parentType.numVariables ∧
    c.unbound.sensorVarNum < c.parentType.numVariables ∧
    (c.bound p uuid varCode).parentSense.map SensorPtr.type = some c.parentType ∧
    SensorType.numVariables .AOSongDHT = 3 ∧
    SensorType.numVariables .Decagon5TM = 3 ∧
    SensorType.numVariables .MeterTeros11 = 3 ∧
    SensorType.numVariables .YosemitechY511 = 2 ∧
    SensorType.numVariables .YosemitechY520 = 2 := by
  cases c <;> refine ⟨?_, ?_, ?_, rfl, rfl, rfl, rfl, rfl⟩ <;>
    first
      | rfl
      | exact Nat.le_of_ble_eq_true rfl

/-- C2: within each sensor type the result-buffer indices of its variable
classes are 0-based and pairwise distinct: listed in declaration order they
are exactly 0, 1, ..., K-1, and two variable classes with the same parent type
and the same index (through either constructor) are the same class. -/
theorem variable_indices_distinct_per_sensor :
    (∀ c : VariableClass, c ∈ VariableClass.all) ∧
    (∀ t : SensorType,
      ((VariableClass.all.filter (fun c => c.parentType = t)).map
        (fun c => c.unbound.sensorVarNum)) = List.range t.numVariables) ∧
    (∀ c₁ c₂ : VariableClass,
      (c₁.parentType = c₂.parentType ∧
        c₁.unbound.sensorVarNum = c₂.unbound.sensorVarNum) ↔ c₁ = c₂) ∧
    (∀ (c : VariableClass) (p : c.parentType.Obj) (uuid varCode : Option String),
      (c.bound p uuid varCode).sensorVarNum = c.unbound.sensorVarNum) := by
  refine ⟨?_, ?_, ?_, ?_⟩
  · intro c; cases c <;> decide
  · intro t; cases t <;> decide
  · intro c₁ c₂; cases c₁ <;> cases c₂ <;> decide
  · intro c p uuid varCode; cases c <;> rfl

/-! ## Timing profiles -/

/-- C3 (as amended): every `MeterTeros11` constructor hands the base sensor a
stabilization time of 50 ms, the value of `TEROS11_STABILIZATION_TIME_MS` that
the constant's own comment documents, whatever its arguments; the `Decagon5TM`
constructors hand over 0 ms. -/
theorem MeterTeros11_stabilization_time (c : Char) (str : String) (i : Int)
    (powerPin dataPin : Int) (measurementsToAverage : Option Nat) :
    (∀ m ∈ [MeterTeros11.ofChar c powerPin dataPin measurementsToAverage,
            MeterTeros11.ofCString str powerPin dataPin measurementsToAverage,
            MeterTeros11.ofInt i powerPin dataPin measurementsToAverage],
      m.stabilizationTime_ms = 50 ∧
      m.stabilizationTime_ms = TEROS11_STABILIZATION_TIME_MS) ∧
    (∀ m ∈ [Decagon5TM.ofChar c powerPin dataPin measurementsToAverage,
            Decagon5TM.ofCString str powerPin dataPin measurementsToAverage,
            Decagon5TM.ofInt i powerPin dataPin measurementsToAverage],
      m.stabilizationTime_ms = 0) ∧
    TEROS11_STABILIZATION_TIME_MS = 50 ∧ TM_STABILIZATION_TIME_MS = 0 ∧
    SensorType.timing .MeterTeros11 = ⟨250, 50, 50⟩ := by
  refine ⟨?_, ?_, rfl, rfl, rfl⟩
  · intro m hm
    simp only [List.mem_cons, List.mem_singleton, List.mem_nil_iff, or_false] at hm
    rcases hm with rfl | rfl | rfl <;> exact ⟨rfl, rfl⟩
  · intro m hm
    simp only [List.mem_cons, List.mem_singleton, List.mem_nil_iff, or_false] at hm
    rcases hm with rfl | rfl | rfl <;> rfl

/-- Counterexample to C3 as stated: `MeterTeros11('a', 22, 7)`, like the other
two overloads, hands the base sensor a stabilization time of 50 ms, which is
not 0 ms; the `Decagon5TM` constructor hands over 0 ms. -/
theorem MeterTeros11_stabilization_is_50 :
    TEROS11_STABILIZATION_TIME_MS = 50 ∧
    (MeterTeros11.ofChar 'a' 22 7 none).stabilizationTime_ms = 50 ∧
    (MeterTeros11.ofCString "a" 22 7 none).stabilizationTime_ms = 50 ∧
    (MeterTeros11.ofInt 1 22 7 none).stabilizationTime_ms = 50 ∧
    (MeterTeros11.ofChar 'a' 22 7 none).stabilizationTime_ms ≠ 0 ∧
    (Decagon5TM.ofChar 'a' 22 7 none).stabilizationTime_ms = 0 := by
  refine ⟨rfl, rfl, rfl, rfl, ?_, rfl⟩
  decide

/-- C4 (evaluation of the code): the `YosemitechY511` constructors hand the base
sensor warm-up 8000 ms and stabilization 40000 ms, whose sum is exactly the
documented 48 s and therefore not strictly greater than it. -/
theorem Y511_warmUp_plus_stabilization_is_48s :
    (YosemitechY511.ofStreamPtr 1 ⟨0⟩ 22 none none none).warmUpTime_ms = 8000 ∧
    (YosemitechY511.ofStreamPtr 1 ⟨0⟩ 22 none none none).stabilizationTime_ms = 40000 ∧
    (YosemitechY511.ofStreamPtr 1 ⟨0⟩ 22 none none none).warmUpTime_ms +
      (YosemitechY511.ofStreamPtr 1 ⟨0⟩ 22 none none none).stabilizationTime_ms =
      Y511_DOC_CONSECUTIVE_MS ∧
    ¬ (Y511_DOC_CONSECUTIVE_MS <
      (YosemitechY511.ofStreamPtr 1 ⟨0⟩ 22 none none none).warmUpTime_ms +
        (YosemitechY511.ofStreamPtr 1 ⟨0⟩ 22 none none none).stabilizationTime_ms) ∧
    ¬ (Y511_DOC_CONSECUTIVE_MS < Y511_WARM_UP_TIME_MS + Y511_STABILIZATION_TIME_MS) := by
  refine ⟨rfl, rfl, rfl, ?_, ?_⟩ <;> decide

/-- C6: for both Yosemitech drivers and both constructor overloads, the warm-up
time handed to the base is at least the documented time before the sensor
responds after power (Y511: 500 ms, Y520: 1200 ms), the stabilization time is
at least the documented time to a stable reading (Y511: 22 s, Y520: 10 s), and
for the Y511 warm-up plus stabilization exceeds the 20 s needed with the brush. -/
theorem Yosemitech_timing_covers_documentation (modbusAddress : Nat) (stream : Stream)
    (powerPin : Int) (powerPin2 enablePin : Option Int)
    (measurementsToAverage : Option Nat) :
    (∀ y ∈ [YosemitechY511.ofStreamPtr modbusAddress stream powerPin powerPin2 enablePin
              measurementsToAverage,
            YosemitechY511.ofStreamRef modbusAddress stream powerPin powerPin2 enablePin
              measurementsToAverage],
      Y511_DOC_RESPONSE_MS ≤ y.warmUpTime_ms ∧
      Y511_DOC_STABLE_MS ≤ y.stabilizationTime_ms ∧
      Y511_DOC_BRUSH_MS < y.warmUpTime_ms + y.stabilizationTime_ms) ∧
    (∀ y ∈ [YosemitechY520.ofStreamPtr modbusAddress stream powerPin powerPin2 enablePin
              measurementsToAverage,
            YosemitechY520.ofStreamRef modbusAddress stream powerPin powerPin2 enablePin
              measurementsToAverage],
      Y520_DOC_RESPONSE_MS ≤ y.warmUpTime_ms ∧
      Y520_DOC_STABLE_MS ≤ y.stabilizationTime_ms) ∧
    Y511_DOC_RESPONSE_MS = 500 ∧ Y511_DOC_STABLE_MS = 22000 ∧
    Y511_DOC_BRUSH_MS = 20000 ∧ Y520_DOC_RESPONSE_MS = 1200 ∧
    Y520_DOC_STABLE_MS = 10000 := by
  refine ⟨?_, ?_, rfl, rfl, rfl, rfl, rfl⟩
  · intro y hy
    simp only [List.mem_cons, List.mem_singleton, List.mem_nil_iff, or_false] at hy
    rcases hy with rfl | rfl <;>
      exact ⟨show 500 ≤ 8000 by decide, show 22000 ≤ 40000 by decide,
        show 20000 < 8000 + 40000 by decide⟩
  · intro y hy
    simp only [List.mem_cons, List.mem_singleton, List.mem_nil_iff, or_false] at hy
    rcases hy with rfl | rfl <;>
      exact ⟨show 1200 ≤ 1600 by decide, show 10000 ≤ 10000 by decide⟩

/-- C7: every `MeterTeros11` constructor hands the base a warm-up time of at
least the documented typical 245 ms and a measurement time of at least 50 ms,
the upper end of the documented 25 ms to 50 ms. -/
theorem MeterTeros11_timing_covers_documentation (c : Char) (str : String) (i : Int)
    (powerPin dataPin : Int) (measurementsToAverage : Option Nat) :
    (∀ m ∈ [MeterTeros11.ofChar c powerPin dataPin measurementsToAverage,
            MeterTeros11.ofCString str powerPin dataPin measurementsToAverage,
            MeterTeros11.ofInt i powerPin dataPin measurementsToAverage],
      TEROS11_DOC_WARM_UP_MS ≤ m.warmUpTime_ms ∧
      TEROS11_DOC_MEASUREMENT_MAX_MS ≤ m.measurementTime_ms) ∧
    TEROS11_DOC_WARM_UP_MS = 245 ∧ TEROS11_DOC_MEASUREMENT_MAX_MS = 50 := by
  refine ⟨?_, rfl, rfl⟩
  intro m hm
  simp only [List.mem_cons, List.mem_singleton, List.mem_nil_iff, or_false] at hm
  rcases hm with rfl | rfl | rfl <;>
    exact ⟨show 245 ≤ 250 by decide, show 50 ≤ 50 by decide⟩

/-! ## The DHT type table -/

/-- C8: the enumeration is the table DHT11 -> 11, DHT21 -> 21, AM2301 -> 21,
DHT22 -> 22, AM2302 -> 22; two distinct names share a value exactly when they
are the pair DHT21/AM2301 or the pair DHT22/AM2302; the five names denote
exactly three values; no name other than DHT11 has the value of DHT11. -/
theorem DHTtype_equivalence_table :
    DHTtype.all.map DHTtype.value = [11, 21, 21, 22, 22] ∧
    (∀ a : DHTtype, a ∈ DHTtype.all) ∧
    (∀ a b : DHTtype, (a ≠ b ∧ a.value = b.value) ↔
      ((a = .DHT21 ∧ b = .AM2301) ∨ (a = .AM2301 ∧ b = .DHT21) ∨
       (a = .DHT22 ∧ b = .AM2302) ∨ (a = .AM2302 ∧ b = .DHT22))) ∧
    (DHTtype.all.map DHTtype.value).dedup = [11, 21, 22] ∧
    ((DHTtype.all.map DHTtype.value).dedup).length = 3 ∧
    (∀ a : DHTtype, a.value = DHTtype.value .DHT11 ↔ a = .DHT11) := by
  refine ⟨rfl, ?_, ?_, by decide, by decide, ?_⟩
  · intro a; cases a <;> decide
  · intro a b; cases a <;> cases b <;> decide
  · intro a; cases a <;> decide

/-! ## Aggregation and timing of the lifecycle -/

/-- C10: for the timing profile of every driver, once power is on (the sensor
has entered `WarmingUp`, one tick after start with an absent power pin and two
ticks after start otherwise, stamped with the time of that tick), ticks that
advance the clock by less than the warm-up time leave the sensor unchanged in
`WarmingUp` and a tick at exactly warm-up time after phase entry moves it to
`Stabilizing`; likewise ticks that advance the clock by less than the
stabilization time leave it in `Stabilizing` and a tick at exactly the
stabilization time moves it to `MeasurementTriggered`. -/
theorem warmUp_and_stabilization_delays_honored (d : SensorType) (powerPin : Int)
    (measurementsToAverage retryBudget graceMargin : Nat) :
    (∀ t₁ t₂ : Tick,
      (run (d.lifecycleConfig powerPin measurementsToAverage retryBudget graceMargin)
        (SensorState.init
          (d.lifecycleConfig powerPin measurementsToAverage retryBudget graceMargin))
        (if powerPin < 0 then [t₂] else [t₁, t₂])).phase = .WarmingUp ∧
      (run (d.lifecycleConfig powerPin measurementsToAverage retryBudget graceMargin)
        (SensorState.init
          (d.lifecycleConfig powerPin measurementsToAverage retryBudget graceMargin))
        (if powerPin < 0 then [t₂] else [t₁, t₂])).phaseEntry = t₂.now) ∧
    (∀ (s : SensorState) (ticks : List Tick), s.phase = .WarmingUp →
      (∀ u ∈ ticks,
        s.phaseEntry ≤ u.now ∧ u.now < s.phaseEntry + d.timing.warmUpTime_ms) →
      run (d.lifecycleConfig powerPin measurementsToAverage retryBudget graceMargin)
        s ticks = s) ∧
    (∀ (s : SensorState) (t : Tick), s.phase = .WarmingUp →
      t.now = s.phaseEntry + d.timing.warmUpTime_ms →
      (step (d.lifecycleConfig powerPin measurementsToAverage retryBudget graceMargin)
        t s).phase = .Stabilizing ∧
      (step (d.lifecycleConfig powerPin measurementsToAverage retryBudget graceMargin)
        t s).phaseEntry = t.now) ∧
    (∀ (s : SensorState) (ticks : List Tick), s.phase = .Stabilizing →
      (∀ u ∈ ticks,
        s.phaseEntry ≤ u.now ∧ u.now < s.phaseEntry + d.timing.stabilizationTime_ms) →
      run (d.lifecycleConfig powerPin measurementsToAverage retryBudget graceMargin)
        s ticks = s) ∧
    (∀ (s : SensorState) (t : Tick), s.phase = .Stabilizing →
      t.now = s.phaseEntry + d.timing.stabilizationTime_ms →
      (step (d.lifecycleConfig powerPin measurementsToAverage retryBudget graceMargin)
        t s).phase = .MeasurementTriggered ∧
      (step (d.lifecycleConfig powerPin measurementsToAverage retryBudget graceMargin)
        t s).phaseEntry = t.now) := by
  refine ⟨?_, ?_, ?_, ?_, ?_⟩
  · intro t₁ t₂
    by_cases hp : powerPin < 0
    · simp [hp, run, step, SensorState.init, SensorType.lifecycleConfig]
    · simp [hp, run, step, SensorState.init, SensorType.lifecycleConfig]
  · intro s ticks hp h
    exact run_of_steps_fixed _ s ticks
      (fun u hu => step_warmingUp_early _ s u hp (h u hu).1 (h u hu).2)
  · intro s t hp ht
    rw [step_warmingUp_due _ s t hp (le_of_eq ht.symm)]
    exact ⟨rfl, rfl⟩
  · intro s ticks hp h
    exact run_of_steps_fixed _ s ticks
      (fun u hu => step_stabilizing_early _ s u hp (h u hu).1 (h u hu).2)
  · intro s t hp ht
    rw [step_stabilizing_due _ s t hp (le_of_eq ht.symm)]
    exact ⟨rfl, rfl⟩

/-- Witness for C10: a Meter Teros 11 (warm-up 250 ms, stabilization 50 ms)
started at 0 ms enters `WarmingUp` at 50 ms, stays there through ticks at 100,
200 and 299 ms and moves to `Stabilizing` at 300 ms; it stays there through
ticks at 310 and 349 ms and moves on at 350 ms. -/
theorem warmUp_and_stabilization_delays_honored_witness :
    (teros11Warming.phase = .WarmingUp ∧ teros11Warming.phaseEntry = 50 ∧
      teros11Stabilizing.phase = .Stabilizing ∧ teros11Stabilizing.phaseEntry = 300) ∧
    run cfgTeros11 teros11Warming [silentTick 100, silentTick 200, silentTick 299] =
      teros11Warming ∧
    (step cfgTeros11 (silentTick 300) teros11Warming).phase = .Stabilizing ∧
    run cfgTeros11 teros11Stabilizing [silentTick 310, silentTick 349] =
      teros11Stabilizing ∧
    (step cfgTeros11 (silentTick 350) teros11Stabilizing).phase = .MeasurementTriggered :=
  ⟨⟨rfl, rfl, rfl, rfl⟩,
    (warmUp_and_stabilization_delays_honored .MeterTeros11 22 1 3 0).2.1
      teros11Warming [silentTick 100, silentTick 200, silentTick 299] rfl (by decide),
    ((warmUp_and_stabilization_delays_honored .MeterTeros11 22 1 3 0).2.2.1
      teros11Warming (silentTick 300) rfl rfl).1,
    (warmUp_and_stabilization_delays_honored .MeterTeros11 22 1 3 0).2.2.2.1
      teros11Stabilizing [silentTick 310, silentTick 349] rfl (by decide),
    ((warmUp_and_stabilization_delays_honored .MeterTeros11 22 1 3 0).2.2.2.2
      teros11Stabilizing (silentTick 350) rfl rfl).1⟩

/-! ## Failing cycles -/

theorem step_retries_le (cfg : LifecycleConfig) (t : Tick) (s : SensorState)
    (h : s.retries ≤ cfg.retryBudget) : (step cfg t s).retries ≤ cfg.retryBudget := by
  unfold step
  split
  all_goals (try split)
  all_goals (try split)
  all_goals first
    | exact h
    | exact Nat.zero_le _
    | (show s.retries + 1 ≤ cfg.retryBudget; omega)

theorem run_retries_le (cfg : LifecycleConfig) (ticks : List Tick) (s : SensorState)
    (h : s.retries ≤ cfg.retryBudget) : (run cfg s ticks).retries ≤ cfg.retryBudget := by
  induction ticks generalizing s with
  | nil => exact h
  | cons t ts ih => exact ih (step cfg t s) (step_retries_le cfg t s h)

theorem run_of_complete (cfg : LifecycleConfig) (ticks : List Tick) (s : SensorState)
    (h : s.phase = .Complete) : run cfg s ticks = s :=
  run_of_steps_fixed cfg s ticks (fun u _ => by simp [step, h])

theorem run_append (cfg : LifecycleConfig) (s : SensorState) (xs ys : List Tick) :
    run cfg s (xs ++ ys) = run cfg (run cfg s xs) ys := by
  simp [run, List.foldl_append]

theorem noData_step (cfg : LifecycleConfig) (t : Tick) (s : SensorState)
    (hf : t.fails cfg)
    (h : s.phase ≠ .Averaging ∧
      s.resultBuffer = List.replicate cfg.numReturnedValues ⟨0, 0⟩ ∧
      (s.phase = .Complete → s.published = List.replicate cfg.numReturnedValues none)) :
    (step cfg t s).phase ≠ .Averaging ∧
      (step cfg t s).resultBuffer = List.replicate cfg.numReturnedValues ⟨0, 0⟩ ∧
      ((step cfg t s).phase = .Complete →
        (step cfg t s).published = List.replicate cfg.numReturnedValues none) := by
  obtain ⟨h1, hbuf, h2⟩ := h
  obtain ⟨_, hf2⟩ := hf
  cases hph : s.phase
  case Averaging => exact absurd hph h1
  case AwaitingResult =>
    cases hr : t.poll
    case Ready raw =>
      have hl : raw.length ≠ cfg.numReturnedValues := by simpa [hr] using hf2
      simp [step, hph, hr, hl, hbuf]
    all_goals
      simp only [step, hph, hr]
      try split
      all_goals simp [hph, hbuf]
  all_goals
    simp only [step, hph]
    try split
    all_goals simp_all [SensorState.init, Accumulator.average]

theorem retriesLeft_succ (cfg : LifecycleConfig) (r : Nat) (h : r < cfg.retryBudget) :
    (cfg.retryBudget - r) * roundTicks cfg =
      (cfg.retryBudget - (r + 1)) * roundTicks cfg + roundTicks cfg := by
  have hb : cfg.retryBudget - r = (cfg.retryBudget - (r + 1)) + 1 := by omega
  rw [hb, Nat.add_mul, Nat.one_mul]

theorem ticksLeft_step_lt (cfg : LifecycleConfig) (t : Tick) (s : SensorState) (next : Nat)
    (hf : t.fails cfg) (hclock : t.now < next) (hnc : s.phase ≠ .Complete) :
    ticksLeft cfg (step cfg t s) next < ticksLeft cfg s t.now := by
  obtain ⟨hbus, hpoll⟩ := hf
  have hR : roundTicks cfg = cfg.timing.measurementTime_ms + cfg.graceMargin + 4 := rfl
  cases hph : s.phase
  case Complete => exact absurd hph hnc
  case PowerDown =>
    simp only [step, hph, ticksLeft, SensorState.init, Nat.sub_zero]
    omega
  case Uninitialized =>
    by_cases hp : cfg.powerPin < 0
    · simp only [step, hph, hp, ticksLeft, if_true]
      omega
    · simp only [step, hph, hp, ticksLeft, if_false]
      omega
  case PowerRequested =>
    simp only [step, hph, ticksLeft]
    omega
  case WarmingUp =>
    by_cases hd : cfg.timing.warmUpTime_ms ≤ t.now - s.phaseEntry
    · simp only [step, hph, hd, ticksLeft, if_true]
      omega
    · simp only [step, hph, hd, ticksLeft, if_false]
      omega
  case Stabilizing =>
    by_cases hd : cfg.timing.stabilizationTime_ms ≤ t.now - s.phaseEntry
    · simp only [step, hph, hd, ticksLeft, if_true]
      omega
    · simp only [step, hph, hd, ticksLeft, if_false]
      omega
  case MeasurementTriggered =>
    cases hr : t.request
    case BusBusy => exact absurd hr hbus
    case handle =>
      simp only [step, hph, hr, ticksLeft]
      omega
    case NoResponse =>
      simp only [step, hph, hr, ticksLeft]
      omega
  case AwaitingResult =>
    cases hr : t.poll
    case Ready raw =>
      have hl : raw.length ≠ cfg.numReturnedValues := by simpa [hr] using hpoll
      simp only [step, hph, hr, hl, ticksLeft, if_false]
      omega
    case Malformed =>
      simp only [step, hph, hr, ticksLeft]
      omega
    case Timeout =>
      simp only [step, hph, hr, ticksLeft]
      omega
    case Pending =>
      by_cases hd : cfg.timing.measurementTime_ms + cfg.graceMargin < t.now - s.phaseEntry
      · simp only [step, hph, hr, hd, ticksLeft, if_true]
        omega
      · simp only [step, hph, hr, hd, ticksLeft, if_false]
        omega
  case Averaging =>
    by_cases hd : s.sampleCount < cfg.measurementsToAverage
    · simp only [step, hph, hd, ticksLeft, if_true]
      omega
    · simp only [step, hph, hd, ticksLeft, if_false]
      omega
  case Failed =>
    by_cases hd : s.retries < cfg.retryBudget
    · have hk := retriesLeft_succ cfg s.retries hd
      simp only [step, hph, hd, ticksLeft, if_true]
      omega
    · simp only [step, hph, hd, ticksLeft, if_false]
      omega

theorem eventually_complete (cfg : LifecycleConfig) (k : Nat) :
    ∀ (s : SensorState) (ticks : Nat → Tick),
      (∀ j, (ticks j).now < (ticks (j + 1)).now) → (∀ j, (ticks j).fails cfg) →
      ticksLeft cfg s (ticks 0).now ≤ k →
      ∃ n, n ≤ k ∧ (run cfg s ((List.range n).map ticks)).phase = .Complete := by
  induction k with
  | zero =>
    intro s ticks hclock hfail hk
    refine ⟨0, Nat.le_refl 0, ?_⟩
    by_contra hnc
    have := ticksLeft_step_lt cfg (ticks 0) s (ticks 1).now (hfail 0) (hclock 0) hnc
    omega
  | succ k ih =>
    intro s ticks hclock hfail hk
    by_cases hc : s.phase = .Complete
    · exact ⟨0, Nat.zero_le _, hc⟩
    · have hlt := ticksLeft_step_lt cfg (ticks 0) s (ticks 1).now (hfail 0) (hclock 0) hc
      obtain ⟨n, hn, hdone⟩ := ih (step cfg (ticks 0) s) (fun j => ticks (j + 1))
        (fun j => hclock (j + 1)) (fun j => hfail (j + 1))
        (by simp only [Nat.zero_add]; omega)
      refine ⟨n + 1, by omega, ?_⟩
      rw [List.range_succ_eq_map, List.map_cons, List.map_map, run_cons]
      exact hdone

theorem noData_run (cfg : LifecycleConfig) (ticks : List Tick) (s : SensorState)
    (hf : ∀ t ∈ ticks, t.fails cfg)
    (h : s.phase ≠ .Averaging ∧
      s.resultBuffer = List.replicate cfg.numReturnedValues ⟨0, 0⟩ ∧
      (s.phase = .Complete → s.published = List.replicate cfg.numReturnedValues none)) :
    (run cfg s ticks).phase ≠ .Averaging ∧
      (run cfg s ticks).resultBuffer = List.replicate cfg.numReturnedValues ⟨0, 0⟩ ∧
      ((run cfg s ticks).phase = .Complete →
        (run cfg s ticks).published = List.replicate cfg.numReturnedValues none) := by
  induction ticks generalizing s with
  | nil => exact h
  | cons t ts ih =>
    rw [run_cons]
    exact ih (step cfg t s) (fun u hu => hf u (List.mem_cons_of_mem t hu))
      (noData_step cfg t s (hf t (List.mem_cons_self t ts)) h)

/-- C11: if every measurement attempt fails (every tick of the stream fails) and
the clock advances, a fresh sensor reaches `Complete` within a bounded number
of ticks and stays there, with each of its K quantities published as undefined,
which is not the value zero; its retry counter never exceeds the retry budget,
along this stream and along any sequence of ticks whatever. -/
theorem all_attempts_fail_completes_undefined (cfg : LifecycleConfig) (ticks : Nat → Tick)
    (hclock : ∀ j, (ticks j).now < (ticks (j + 1)).now)
    (hfail : ∀ j, (ticks j).fails cfg) :
    (∃ n, n ≤ ticksLeft cfg (SensorState.init cfg) (ticks 0).now ∧ ∀ m, n ≤ m →
      (runStream cfg ticks m).phase = .Complete ∧
      (runStream cfg ticks m).published.length = cfg.numReturnedValues ∧
      ∀ i, i < cfg.numReturnedValues →
        (runStream cfg ticks m).published[i]? = some none ∧
        (runStream cfg ticks m).published[i]? ≠ some (some 0)) ∧
    (∀ m, (runStream cfg ticks m).retries ≤ cfg.retryBudget) ∧
    (∀ anyTicks : List Tick,
      (run cfg (SensorState.init cfg) anyTicks).retries ≤ cfg.retryBudget) := by
  have hret : ∀ anyTicks : List Tick,
      (run cfg (SensorState.init cfg) anyTicks).retries ≤ cfg.retryBudget :=
    fun anyTicks => run_retries_le cfg anyTicks (SensorState.init cfg) (Nat.zero_le _)
  refine ⟨?_, fun m => hret _, hret⟩
  obtain ⟨n, hn, hdone⟩ := eventually_complete cfg _ (SensorState.init cfg) ticks hclock hfail
    (Nat.le_refl _)
  refine ⟨n, hn, fun m hm => ?_⟩
  have hinv := noData_run cfg ((List.range m).map ticks) (SensorState.init cfg)
    (fun t ht => by
      obtain ⟨j, _, rfl⟩ := List.mem_map.mp ht
      exact hfail j)
    ⟨by simp [SensorState.init], rfl, by simp [SensorState.init]⟩
  have hphase : (runStream cfg ticks m).phase = .Complete := by
    obtain ⟨d, rfl⟩ := Nat.exists_eq_add_of_le hm
    unfold runStream
    rw [List.range_add, List.map_append, run_append, run_of_complete cfg _ _ hdone]
    exact hdone
  have hpub := hinv.2.2 hphase
  refine ⟨hphase, ?_, fun i hi => ?_⟩
  · unfold runStream; rw [hpub]; simp
  · unfold runStream; rw [hpub]; simp [hi]

/-- Witness for C11: a Decagon 5TM with a retry budget of three, polled every
50 ms while the device never responds: it is `Failed` for the last time after
14 ticks and `Complete` with three undefined quantities after 15. -/
theorem all_attempts_fail_completes_undefined_witness :
    ((∀ j, (silentEvery50 j).now < (silentEvery50 (j + 1)).now) ∧
      (∀ j, (silentEvery50 j).fails cfg5TM)) ∧
    ((∃ n, n ≤ ticksLeft cfg5TM (SensorState.init cfg5TM) (silentEvery50 0).now ∧
        ∀ m, n ≤ m →
        (runStream cfg5TM silentEvery50 m).phase = .Complete ∧
        (runStream cfg5TM silentEvery50 m).published.length =
          cfg5TM.numReturnedValues ∧
        ∀ i, i < cfg5TM.numReturnedValues →
          (runStream cfg5TM silentEvery50 m).published[i]? = some none ∧
          (runStream cfg5TM silentEvery50 m).published[i]? ≠
            some (some 0)) ∧
      (∀ m, (runStream cfg5TM silentEvery50 m).retries ≤
        cfg5TM.retryBudget) ∧
      (∀ anyTicks : List Tick,
        (run cfg5TM (SensorState.init cfg5TM) anyTicks).retries ≤ cfg5TM.retryBudget)) ∧
    (runStream cfg5TM silentEvery50 14).phase = .Failed ∧
    (runStream cfg5TM silentEvery50 15).phase = .Complete ∧
    (runStream cfg5TM silentEvery50 15).retries = 3 ∧
    (runStream cfg5TM silentEvery50 15).published = [none, none, none] :=
  ⟨⟨fun j => by show 50 * j < 50 * (j + 1); omega,
      fun _ => ⟨by simp [silentEvery50, silentTick], by simp [silentEvery50, silentTick]⟩⟩,
    all_attempts_fail_completes_undefined cfg5TM silentEvery50
      (fun j => by show 50 * j < 50 * (j + 1); omega)
      (fun _ => ⟨by simp [silentEvery50, silentTick], by simp [silentEvery50, silentTick]⟩),
    by decide, by decide, by decide, by decide⟩

/-! ## Constructor defaults and variable configuration -/

/-- C12: every constructor overload of the five drivers (AOSongDHT; the `char`,
`char*` and `int` overloads of Decagon5TM and MeterTeros11; the `Stream*` and
`Stream&` overloads of YosemitechY511 and YosemitechY520) gives the sensor an
averaging count of 1 when the caller omits `measurementsToAverage`, and the
caller's value unchanged otherwise. -/
theorem measurementsToAverage_default_and_forwarding (powerPin dataPin : Int)
    (type : DHTtype) (c : Char) (str : String) (i : Int) (modbusAddress : Nat)
    (stream : Stream) (powerPin2 enablePin : Option Int) (n : Nat) :
    [(AOSongDHT.construct powerPin dataPin type none).measurementsToAverage,
      (Decagon5TM.ofChar c powerPin dataPin none).measurementsToAverage,
      (Decagon5TM.ofCString str powerPin dataPin none).measurementsToAverage,
      (Decagon5TM.ofInt i powerPin dataPin none).measurementsToAverage,
      (MeterTeros11.ofChar c powerPin dataPin none).measurementsToAverage,
      (MeterTeros11.ofCString str powerPin dataPin none).measurementsToAverage,
      (MeterTeros11.ofInt i powerPin dataPin none).measurementsToAverage,
      (YosemitechY511.ofStreamPtr modbusAddress stream powerPin powerPin2 enablePin
        none).measurementsToAverage,
      (YosemitechY511.ofStreamRef modbusAddress stream powerPin powerPin2 enablePin
        none).measurementsToAverage,
      (YosemitechY520.ofStreamPtr modbusAddress stream powerPin powerPin2 enablePin
        none).measurementsToAverage,
      (YosemitechY520.ofStreamRef modbusAddress stream powerPin powerPin2 enablePin
        none).measurementsToAverage] = List.replicate 11 1 ∧
    [(AOSongDHT.construct powerPin dataPin type (some n)).measurementsToAverage,
      (Decagon5TM.ofChar c powerPin dataPin (some n)).measurementsToAverage,
      (Decagon5TM.ofCString str powerPin dataPin (some n)).measurementsToAverage,
      (Decagon5TM.ofInt i powerPin dataPin (some n)).measurementsToAverage,
      (MeterTeros11.ofChar c powerPin dataPin (some n)).measurementsToAverage,
      (MeterTeros11.ofCString str powerPin dataPin (some n)).measurementsToAverage,
      (MeterTeros11.ofInt i powerPin dataPin (some n)).measurementsToAverage,
      (YosemitechY511.ofStreamPtr modbusAddress stream powerPin powerPin2 enablePin
        (some n)).measurementsToAverage,
      (YosemitechY511.ofStreamRef modbusAddress stream powerPin powerPin2 enablePin
        (some n)).measurementsToAverage,
      (YosemitechY520.ofStreamPtr modbusAddress stream powerPin powerPin2 enablePin
        (some n)).measurementsToAverage,
      (YosemitechY520.ofStreamRef modbusAddress stream powerPin powerPin2 enablePin
        (some n)).measurementsToAverage] = List.replicate 11 n :=
  ⟨rfl, rfl⟩

/-- C13: for both Yosemitech drivers and both constructor overloads, constructing
with only (modbusAddress, stream, powerPin) hands the base powerPin2 = -1,
enablePin = -1 and measurementsToAverage = 1, and yields the same object as
passing -1, -1 and 1 explicitly. -/
theorem Yosemitech_omitted_pins_are_minus_one (modbusAddress : Nat) (stream : Stream)
    (powerPin : Int) :
    (∀ y ∈ [(YosemitechY511.ofStreamPtr modbusAddress stream powerPin none none
              none).toYosemitechParent,
            (YosemitechY511.ofStreamRef modbusAddress stream powerPin none none
              none).toYosemitechParent,
            (YosemitechY520.ofStreamPtr modbusAddress stream powerPin none none
              none).toYosemitechParent,
            (YosemitechY520.ofStreamRef modbusAddress stream powerPin none none
              none).toYosemitechParent],
      y.powerPin2 = -1 ∧ y.enablePin = -1 ∧ y.measurementsToAverage = 1 ∧
      y.modbusAddress = modbusAddress ∧ y.stream = stream ∧ y.powerPin = powerPin) ∧
    YosemitechY511.ofStreamPtr modbusAddress stream powerPin none none none =
      YosemitechY511.ofStreamPtr modbusAddress stream powerPin (some (-1)) (some (-1))
        (some 1) ∧
    YosemitechY511.ofStreamRef modbusAddress stream powerPin none none none =
      YosemitechY511.ofStreamRef modbusAddress stream powerPin (some (-1)) (some (-1))
        (some 1) ∧
    YosemitechY520.ofStreamPtr modbusAddress stream powerPin none none none =
      YosemitechY520.ofStreamPtr modbusAddress stream powerPin (some (-1)) (some (-1))
        (some 1) ∧
    YosemitechY520.ofStreamRef modbusAddress stream powerPin none none none =
      YosemitechY520.ofStreamRef modbusAddress stream powerPin (some (-1)) (some (-1))
        (some 1) := by
  refine ⟨?_, rfl, rfl, rfl, rfl⟩
  intro y hy
  simp only [List.mem_cons, List.mem_singleton, List.mem_nil_iff, or_false] at hy
  rcases hy with rfl | rfl | rfl | rfl <;> exact ⟨rfl, rfl, rfl, rfl, rfl, rfl⟩

/-- C14: the bound constructor of every variable class, called without uuid and
varCode, yields the empty external identifier and the short code its
documentation names as the default; a uuid or varCode supplied by the caller
is forwarded unchanged. -/
theorem variable_uuid_and_varCode_defaults (c : VariableClass) (p : c.parentType.Obj)
    (uuid varCode : String) :
    (c.bound p none none).uuid = some "" ∧
    (c.bound p none none).varCode = c.documentedVarCode ∧
    (c.bound p (some uuid) (some varCode)).uuid = some uuid ∧
    (c.bound p (some uuid) (some varCode)).varCode = varCode ∧
    (c.bound p (some uuid) none).uuid = some uuid ∧
    (c.bound p (some uuid) none).varCode = c.documentedVarCode := by
  cases c <;> exact ⟨rfl, rfl, rfl, rfl, rfl, rfl⟩

/-- C15: for the four Yosemitech variables the configured number of decimal
places R satisfies 10^(-R) = the documented resolution exactly: Y511 turbidity
0.01 with R = 2, Y511 temperature 0.1 with R = 1, Y520 conductivity 0.1 with
R = 1, Y520 temperature 0.1 with R = 1; both constructors use the same R. -/
theorem Yosemitech_resolution_matches_documentation :
    (∀ c ∈ [VariableClass.YosemitechY511_Turbidity, .YosemitechY511_Temp,
            .YosemitechY520_Cond, .YosemitechY520_Temp],
      ∃ r, c.documentedResolution = some r ∧
        (10 : ℚ) ^ (-(c.unbound.decimalResolution : ℤ)) = r) ∧
    (∀ (c : VariableClass) (p : c.parentType.Obj) (uuid varCode : Option String),
      (c.bound p uuid varCode).decimalResolution = c.unbound.decimalResolution) ∧
    VariableClass.YosemitechY511_Turbidity.unbound.decimalResolution = 2 ∧
    VariableClass.YosemitechY511_Temp.unbound.decimalResolution = 1 ∧
    VariableClass.YosemitechY520_Cond.unbound.decimalResolution = 1 ∧
    VariableClass.YosemitechY520_Temp.unbound.decimalResolution = 1 ∧
    Y511_DOC_TURB_RESOLUTION = 1 / 100 ∧ Y511_DOC_TEMP_RESOLUTION = 1 / 10 ∧
    Y520_DOC_COND_RESOLUTION = 1 / 10 ∧ Y520_DOC_TEMP_RESOLUTION = 1 / 10 := by
  refine ⟨?_, ?_, rfl, rfl, rfl, rfl, rfl, rfl, rfl, rfl⟩
  · intro c hc
    simp only [List.mem_cons, List.mem_singleton, List.mem_nil_iff, or_false] at hc
    rcases hc with rfl | rfl | rfl | rfl
    · refine ⟨_, rfl, ?_⟩
      have h : VariableClass.YosemitechY511_Turbidity.unbound.decimalResolution = 2 := rfl
      rw [h]; norm_num [Y511_DOC_TURB_RESOLUTION]
    · refine ⟨_, rfl, ?_⟩
      have h : VariableClass.YosemitechY511_Temp.unbound.decimalResolution = 1 := rfl
      rw [h]; norm_num [Y511_DOC_TEMP_RESOLUTION]
    · refine ⟨_, rfl, ?_⟩
      have h : VariableClass.YosemitechY520_Cond.unbound.decimalResolution = 1 := rfl
      rw [h]; norm_num [Y520_DOC_COND_RESOLUTION]
    · refine ⟨_, rfl, ?_⟩
      have h : VariableClass.YosemitechY520_Temp.unbound.decimalResolution = 1 := rfl
      rw [h]; norm_num [Y520_DOC_TEMP_RESOLUTION]
  · intro c p uuid varCode
    cases c <;> rfl

/-- C16: every decimal resolution a variable class passes to the `Variable`
constructor is one of 0, 1, 2, 3, 5, so none is 4 and none exceeds 5, and the
bound and the deferred-binding constructor of a class pass the same one. -/
theorem variable_resolutions_renderable (c : VariableClass) (p : c.parentType.Obj)
    (uuid varCode : Option String) :
    c.unbound.decimalResolution ∈ [0, 1, 2, 3, 5] ∧
    (c.bound p uuid varCode).decimalResolution ∈ [0, 1, 2, 3, 5] ∧
    c.unbound.decimalResolution ≠ 4 ∧ c.unbound.decimalResolution ≤ 5 ∧
    (c.bound p uuid varCode).decimalResolution ≠ 4 ∧
    (c.bound p uuid varCode).decimalResolution ≤ 5 ∧
    (c.bound p uuid varCode).decimalResolution = c.unbound.decimalResolution ∧
    VariableClass.all.map (fun v => v.unbound.decimalResolution) =
      [1, 1, 1, 5, 2, 3, 5, 2, 3, 2, 1, 1, 1] := by
  have hb : (c.bound p uuid varCode).decimalResolution = c.unbound.decimalResolution := by
    cases c <;> rfl
  rw [hb]
  have hu : c.unbound.decimalResolution ∈ [0, 1, 2, 3, 5] ∧
      c.unbound.decimalResolution ≠ 4 ∧ c.unbound.decimalResolution ≤ 5 := by
    cases c <;> decide
  exact ⟨hu.1, hu.1, hu.2.1, hu.2.2, hu.2.1, hu.2.2, rfl, by decide⟩

/-- C17: for every variable class the deferred-binding constructor and the
bound constructor called with default uuid and varCode configure the same
variable: identical result-buffer index, decimal resolution, variable name,
unit label and short code, and no non-empty external identifier in either; the
bound one has a parent of the class's sensor type attached, the other none. -/
theorem unbound_matches_bound_with_defaults (c : VariableClass) (p : c.parentType.Obj) :
    (c.bound p none none).sensorVarNum = c.unbound.sensorVarNum ∧
    (c.bound p none none).decimalResolution = c.unbound.decimalResolution ∧
    (c.bound p none none).varName = c.unbound.varName ∧
    (c.bound p none none).varUnit = c.unbound.varUnit ∧
    (c.bound p none none).varCode = c.unbound.varCode ∧
    (c.bound p none none).uuid.getD "" = c.unbound.uuid.getD "" ∧
    (c.bound p none none).parentSense.isSome = true ∧
    (c.bound p none none).parentSense.map SensorPtr.type = some c.parentType ∧
    c.unbound.parentSense = none := by
  cases c <;> exact ⟨rfl, rfl, rfl, rfl, rfl, rfl, rfl, rfl, rfl⟩

end ModularSensors
